import Mathlib

/-!
Verification development for the DotBot desktop GUI agent
(`src/local-agent/src/tools/gui/desktop/gui_agent.py`).

The Python source is shallowly embedded below.  Conventions:

* Python strings are modelled as `List Char` (`Str`); `str.strip`,
  `str.lower`, `str.split()` and the `in` substring test are implemented
  over `List Char` (`pyStrip`, `pyLower`, `pySplit`, `pyContains`).
  Lower-casing is ASCII lower-casing, which is what the agent's inputs
  (window titles, OCR tokens, app names) use.
* Python `int` is `ℤ`; Python `//` (floor division) is `Int.fdiv`;
  Python `int(float)` (truncation toward zero) is `pyInt` on `ℚ`.
* `difflib.SequenceMatcher(None, a, b).ratio()` is an uninterpreted
  similarity oracle `ratio : Str → Str → ℚ`; the claims under scrutiny
  quantify over its value so nothing depends on its internals.
* OS interactions (window enumeration, screenshots, OCR output,
  accessibility queries, input injection) are oracle inputs: the data
  the OS call would have produced is passed in as an argument.
-/

namespace GuiAgent

/-- Python strings, modelled as lists of characters. -/
abbrev Str := List Char

/-- ASCII whitespace recognised by `str.strip` / `str.split` on the
agent's inputs. -/
def pySpace (c : Char) : Bool :=
  c = ' ' || c = '\t' || c = '\n' || c = '\r'

/-- Python `str.strip()`. -/
def pyStrip (s : Str) : Str :=
  ((s.dropWhile pySpace).reverse.dropWhile pySpace).reverse

/-- ASCII lower-casing of one character (Python `str.lower` on the
ASCII range the agent handles). -/
def pyLowerChar (c : Char) : Char :=
  if 'A' ≤ c ∧ c ≤ 'Z' then Char.ofNat (c.toNat + 32) else c

/-- Python `str.lower()`. -/
def pyLower (s : Str) : Str := s.map pyLowerChar

/-- Python `str.split()`: split on whitespace runs, no empty pieces. -/
def pySplit (s : Str) : List Str :=
  (s.splitOnP pySpace).filter (fun w => w ≠ [])

/-- Python substring test `needle in hay`. -/
def pyContains (hay needle : Str) : Bool :=
  match hay with
  | [] => needle.isPrefixOf hay
  | _ :: t => needle.isPrefixOf hay || pyContains t needle

/-- Python `int(q)` on a float value: truncation toward zero. -/
def pyInt (q : ℚ) : ℤ := if q < 0 then ⌈q⌉ else ⌊q⌋

/-- Python `a // b` on ints: floor division. -/
def pyFloorDiv (a b : ℤ) : ℤ := Int.fdiv a b

/-- A screen-space rectangle `{x, y, w, h}` as the agent reports it. -/
structure PyRect where
  x : ℤ
  y : ℤ
  w : ℤ
  h : ℤ
  deriving Repr, DecidableEq

/-- One raw token of `pytesseract.image_to_data` output: the recognised
text together with its confidence and bounding box (coordinates local
to the captured image). -/
structure OcrToken where
  text : Str
  conf : ℤ
  left : ℤ
  top : ℤ
  width : ℤ
  height : ℤ
  deriving Repr, DecidableEq

/-- One entry of the `ocr_items` list the two OCR tiers build: trimmed
text, confidence, and a screen-space rectangle. -/
structure OcrItem where
  text : Str
  confidence : ℤ
  rect : PyRect
  deriving Repr, DecidableEq

/-! ### Tier 2 candidate construction (`locate_via_ocr_region`, lines 541-558)

The Python loop over the `image_to_data` columns:
```
for i in range(n):
    text = ocr_data["text"][i].strip()
    conf = int(ocr_data["conf"][i])
    if not text or conf < 30:  # Skip empty/low-confidence
        continue
    ocr_items.append({"text": text, "confidence": conf,
        "rect": {"x": rx + left, "y": ry + top, "w": width, "h": height}})
```
-/

/-- Tier-2 `ocr_items` list: tokens whose trimmed text is non-empty and
whose confidence is at least 30, with region-local coordinates shifted
by the capture origin `(rx, ry)`. -/
def ocr_region_items (rx ry : ℤ) : List OcrToken → List OcrItem
  | [] => []
  | tok :: rest =>
    let text := pyStrip tok.text
    if text = [] ∨ tok.conf < 30 then ocr_region_items rx ry rest
    else
      { text := text, confidence := tok.conf,
        rect := { x := rx + tok.left, y := ry + tok.top,
                  w := tok.width, h := tok.height } } :: ocr_region_items rx ry rest

/-! ### Fuzzy matching (`fuzzy_score`, `best_fuzzy_match`, lines 455-478) -/

/-- `fuzzy_score(needle, haystack)`: 0 on an empty argument, otherwise
the `SequenceMatcher` ratio of the lower-cased strings.  `ratio` is the
uninterpreted similarity oracle. -/
def fuzzy_score (ratio : Str → Str → ℚ) (needle haystack : Str) : ℚ :=
  if needle = [] ∨ haystack = [] then 0
  else ratio (pyLower needle) (pyLower haystack)

/-- Loop of `best_fuzzy_match`: track the best item seen so far together
with its score; the running threshold starts at the caller's threshold
and an item is taken only when its score strictly exceeds it.  `txt`
projects the `"text"` field out of an OCR item dict. -/
def best_fuzzy_match_go {α : Type} (ratio : Str → Str → ℚ) (needle : Str)
    (txt : α → Str) : List α → Option (α × ℚ) → ℚ → Option (α × ℚ)
  | [], best, _ => best
  | item :: rest, best, bestScore =>
    let text := pyStrip (txt item)
    if text = [] then best_fuzzy_match_go ratio needle txt rest best bestScore
    else
      let score := fuzzy_score ratio needle text
      if score > bestScore then
        best_fuzzy_match_go ratio needle txt rest (some (item, score)) score
      else
        best_fuzzy_match_go ratio needle txt rest best bestScore

/-- `best_fuzzy_match(needle, ocr_items, threshold)`: best item whose
fuzzy score strictly exceeds `threshold`, or `none`. -/
def best_fuzzy_match {α : Type} (ratio : Str → Str → ℚ) (needle : Str)
    (txt : α → Str) (items : List α) (threshold : ℚ) : Option (α × ℚ) :=
  best_fuzzy_match_go ratio needle txt items none threshold

/-! ### Tier 3 embedding (`locate_via_full_scan`, lines 602-733) -/

/-- The apostrophe character, used by the Python f-strings below. -/
def sq : Char := Char.ofNat 39

/-- Decimal rendering of a natural number, for f-string interpolation. -/
def natStr (n : ℕ) : Str := (Nat.repr n).data

/-- One entry of the Tier-3 `ocr_items` list: trimmed text, confidence,
screen rectangle, and the running `index` field. -/
structure FullOcrItem where
  text : Str
  confidence : ℤ
  rect : PyRect
  index : ℕ
  deriving Repr, DecidableEq

/-- One entry of the `ocr_dump` diagnostic payload. -/
structure DumpItem where
  index : ℕ
  text : Str
  rect : PyRect
  deriving Repr, DecidableEq

/-- A screen point `{x, y}`. -/
structure PyPoint where
  x : ℤ
  y : ℤ
  deriving Repr, DecidableEq

/-- The result dict of `locate_via_full_scan`.  Keys absent from a given
return path are `none` (`needsLlm` is the `"needs_llm"` key, absent
modelled as `false`). -/
structure FullScanResult where
  found : Bool
  method : Str
  error : Option Str := none
  text : Option Str := none
  confidence : Option ℤ := none
  fuzzyScore : Option ℚ := none
  rect : Option PyRect := none
  center : Option PyPoint := none
  ocrDump : Option (List DumpItem) := none
  ocrItemCount : Option ℕ := none
  needsLlm : Bool := false
  tesseractAvailable : Option Bool := none
  installHint : Option Str := none
  deriving Repr, DecidableEq

/-- The remediation message returned when Tesseract is missing
(f-string at lines 617-621 of the source). -/
def tesseract_missing_error (element_text : Str) : Str :=
  ("Element ").data ++ [sq] ++ element_text ++ [sq] ++
  (" not found via accessibility tree. ").data ++ ("Tesseract").data ++
  (" OCR is not installed, so Tier 2/3 OCR fallback is unavailable. To fix: use shell.powershell to run: choco install tesseract -y   OR   download from https://github.com/UB-Mannheim/tesseract/releases and install to C:\\Program Files\\Tesseract-OCR\\").data

/-- The `install_hint` value of the missing-backend result. -/
def tesseract_install_hint : Str :=
  ("shell.powershell: choco install tesseract -y").data

/-- Tier-3 `ocr_items` construction (lines 653-677): drop tokens whose
trimmed text is empty or whose confidence is below 20; map image
coordinates back to screen coordinates through `scale` (the downscale
factor, 1 when no resampling happened); number the kept items with a
running `index`. -/
def full_scan_items (wx wy : ℤ) (scale : ℚ) : List OcrToken → ℕ → List FullOcrItem
  | [], _ => []
  | tok :: rest, idx =>
    let text := pyStrip tok.text
    if text = [] ∨ tok.conf < 20 then full_scan_items wx wy scale rest idx
    else
      let r : PyRect :=
        if scale ≠ 1 then
          { x := wx + pyInt ((tok.left : ℚ) / scale),
            y := wy + pyInt ((tok.top : ℚ) / scale),
            w := pyInt ((tok.width : ℚ) / scale),
            h := pyInt ((tok.height : ℚ) / scale) }
        else
          { x := wx + tok.left, y := wy + tok.top, w := tok.width, h := tok.height }
      { text := text, confidence := tok.conf, rect := r, index := idx } ::
        full_scan_items wx wy scale rest (idx + 1)

/-- The center `{x, y}` of a rect, `rect origin + half extents` with
Python floor division (source: `r["x"] + r["w"] // 2`). -/
def rect_center (r : PyRect) : PyPoint :=
  { x := r.x + pyFloorDiv r.w 2, y := r.y + pyFloorDiv r.h 2 }

/-- `locate_via_full_scan(window, element_text)` (lines 602-733).

Oracle inputs: `tess` is `TESSERACT_AVAILABLE`; `wx wy ww wh` the window
rectangle; `ocr` the raw `image_to_data` output on the (possibly
resampled) screenshot.  The screenshot of the `(wx, wy, ww, wh)` region
is `ww` pixels wide, so the downscale branch fires iff `ww > 1280` and
then `scale_factor = 1280 / ww`.  The model's OS calls do not raise, so
the final `except` branch (line 728) is not represented. -/
def locate_via_full_scan (ratio : Str → Str → ℚ) (tess : Bool)
    (wx wy ww wh : ℤ) (ocr : List OcrToken) (element_text : Str) :
    FullScanResult :=
  if tess = false then
    { found := false, method := ("none").data,
      error := some (tesseract_missing_error element_text),
      tesseractAvailable := some false,
      installHint := some tesseract_install_hint }
  else if ww ≤ 0 ∨ wh ≤ 0 then
    { found := false, method := ("ocr_full").data,
      error := some ("Window has zero size").data }
  else
    let scale : ℚ := if ww > 1280 then Rat.divInt 1280 ww else 1
    let items := full_scan_items wx wy scale ocr 0
    if items = [] then
      { found := false, method := ("ocr_full").data,
        error := some ("OCR found no text on the window").data }
    else
      let needle := pyLower element_text
      match items.find? (fun it =>
          needle == pyLower it.text || pyContains (pyLower it.text) needle) with
      | some it =>
        { found := true, method := ("ocr_full_exact").data,
          text := some it.text, confidence := some it.confidence,
          rect := some it.rect, center := some (rect_center it.rect) }
      | none =>
        match best_fuzzy_match ratio element_text (fun it => it.text) items
            (mkRat 55 100) with
        | some (it, score) =>
          { found := true, method := ("ocr_full_fuzzy").data,
            text := some it.text, confidence := some it.confidence,
            fuzzyScore := some score,
            rect := some it.rect, center := some (rect_center it.rect) }
        | none =>
          { found := false, method := ("ocr_full_no_match").data,
            error := some (("OCR found ").data ++ natStr items.length ++
              (" text items but none matched ").data ++ [sq] ++ element_text ++ [sq]),
            ocrDump := some ((items.take 50).map fun it =>
              { index := it.index, text := it.text, rect := it.rect }),
            ocrItemCount := some items.length,
            needsLlm := true }

/-! ### The cascade (`smart_find`, lines 740-774)

`smart_find` composes the three tier functions.  For the control-flow
claims the tiers are oracle inputs: `t1` is the value
`locate_via_accessibility(...)` returned (`none` = falsy `None`), `t2
hint` the value `locate_via_ocr_region(..., hint)` returned, and `t3`
the `locate_via_full_scan(...)` result.  The instrumented version also
records, in order, which tier calls were made. -/

/-- One tier invocation made by `smart_find`. -/
inductive TierCall where
  | tier1
  | tier2 (hint : Str)
  | tier3
  deriving Repr, DecidableEq

/-- Result of `smart_find`: a tier-1/tier-2 match dict, or the tier-3
result dict (which may itself have `found=False`). -/
inductive SmartResult (α : Type) where
  | tier (m : α)
  | full (r : FullScanResult)
  deriving Repr, DecidableEq

/-- The fallback hints tried by Tier 2 when no explicit
`location_hint` was supplied (line 768). -/
def default_hints : List Str :=
  [("menu_bar").data, ("center").data, ("sidebar").data]

/-- The hint loop of `smart_find` (lines 768-771) followed by the Tier-3
call: try each hint in order, stop at the first hit, fall through to
Tier 3 only when every hint missed. -/
def smart_find_hint_loop {α : Type} (t2 : Str → Option α)
    (t3 : FullScanResult) : List Str → SmartResult α × List TierCall
  | [] => (.full t3, [.tier3])
  | h :: rest =>
    match t2 h with
    | some m => (.tier m, [.tier2 h])
    | none =>
      let (r, tr) := smart_find_hint_loop t2 t3 rest
      (r, .tier2 h :: tr)

/-- `smart_find(window, element_text, element_type, location_hint)`
(lines 740-774), instrumented with the list of tier calls performed.
`tess` is `TESSERACT_AVAILABLE`; `hint` is `location_hint` (`[]` =
absent, which is falsy in Python). -/
def smart_find {α : Type} (tess : Bool) (t1 : Option α) (t2 : Str → Option α)
    (t3 : FullScanResult) (hint : Str) : SmartResult α × List TierCall :=
  match t1 with
  | some m => (.tier m, [.tier1])
  | none =>
    if tess then
      if hint ≠ [] then
        match t2 hint with
        | some m => (.tier m, [.tier1, .tier2 hint])
        | none => (.full t3, [.tier1, .tier2 hint, .tier3])
      else
        let (r, tr) := smart_find_hint_loop t2 t3 default_hints
        (r, .tier1 :: tr)
    else
      (.full t3, [.tier1, .tier3])

/-- Tier rank, for stating that calls happen in cascade order. -/
def tierRank : TierCall → ℕ
  | .tier1 => 1
  | .tier2 _ => 2
  | .tier3 => 3

/-- Whether a given tier call returned a match with `found=true`,
as decided by the oracles. -/
def tierFound {α : Type} (t1 : Option α) (t2 : Str → Option α)
    (t3 : FullScanResult) : TierCall → Bool
  | .tier1 => t1.isSome
  | .tier2 h => (t2 h).isSome
  | .tier3 => t3.found

/-- The Tier-2 hint of a call, if it is one. -/
def tierHint : TierCall → Option Str
  | .tier2 h => some h
  | _ => none

/-! ### Window identification (`find_window` / `_title_matches`, lines 88-197)

`_title_matches` is a closure over `app_lower` (the lower-cased,
stripped application name) and `app_words` (its words of length > 1).
`SequenceMatcher(None, aw, tw).ratio()` is the `ratio` oracle. -/

/-- `app_words`: significant words (length > 1) of the lower-cased
application name (line 108). -/
def app_words_of (appLower : Str) : List Str :=
  (pySplit appLower).filter (fun w => w.length > 1)

/-- `_title_matches(title_lower)` (lines 129-170): score how well a
window title matches the application name.
0 = no match, 1 = fuzzy, 2 = primary word, 3 = all words, 4 = exact
phrase. -/
def title_matches (ratio : Str → Str → ℚ) (appLower titleLower : Str) : ℕ :=
  let appWords := app_words_of appLower
  let titleWords := pySplit titleLower
  if pyStrip titleLower = [] then 0
  else if pyContains titleLower appLower = true then 4
  else if appWords ≠ [] ∧ ∀ w ∈ appWords, pyContains titleLower w = true then 3
  else
    match appWords with
    | [] => 0
    | primary :: restWords =>
      if ∃ tw ∈ titleWords, tw = primary ∨ primary.isPrefixOf tw = true then 2
      else if restWords ≠ [] then
        -- ≥ 2 significant words: every one must fuzzy-match a title word
        if ∀ aw ∈ primary :: restWords, ∃ tw ∈ titleWords, ratio aw tw > mkRat 7 10
        then 1 else 0
      else
        -- single significant word: high ratio against some title word
        if ∃ tw ∈ titleWords, ratio primary tw > mkRat 85 100 then 1 else 0

/-- The title-scan fold of `find_window` (lines 172-192): walk the
desktop's windows `(title, handle)`, skip blank titles, and keep the
first window attaining the strictly-largest score.  The accumulator is
`(best (title, handle), best_score)`. -/
def title_scan_go (ratio : Str → Str → ℚ) (appLower : Str) :
    List (Str × ℤ) → Option (Str × ℤ) × ℕ → Option (Str × ℤ) × ℕ
  | [], acc => acc
  | (title, h) :: rest, (best, bestScore) =>
    if pyStrip title = [] then title_scan_go ratio appLower rest (best, bestScore)
    else
      let score := title_matches ratio appLower (pyLower title)
      if score > bestScore then title_scan_go ratio appLower rest (some (title, h), score)
      else title_scan_go ratio appLower rest (best, bestScore)

/-- The completed title scan, starting from `best_score = 0`,
`best_handle = None`. -/
def title_scan (ratio : Str → Str → ℚ) (appLower : Str)
    (windows : List (Str × ℤ)) : Option (Str × ℤ) × ℕ :=
  title_scan_go ratio appLower windows (none, 0)

/-- Line 194: `if best_handle and best_score >= 2:` — the handle the
title scan connects to, or `none` when the scan accepts nothing.
(A zero handle is falsy in Python, like `None`.) -/
def title_scan_connect (ratio : Str → Str → ℚ) (appLower : Str)
    (windows : List (Str × ℤ)) : Option ℤ :=
  match title_scan ratio appLower windows with
  | (some (_, h), score) => if h ≠ 0 ∧ score ≥ 2 then some h else none
  | (none, _) => none

/-- Modelled from the spec (§4.2 strategy 2 wording, for comparison with
`title_matches`): 4 = exact phrase contained; 3 = every significant word
of the name appears in the title; 2 = the first significant word equals
or prefixes a title word; 1 = the fuzzy-word criterion; 0 otherwise,
in that priority order. -/
def spec_title_score (ratio : Str → Str → ℚ) (appLower titleLower : Str) : ℕ :=
  let appWords := app_words_of appLower
  let titleWords := pySplit titleLower
  if pyStrip titleLower = [] then 0
  else if pyContains titleLower appLower = true then 4
  else if ∀ w ∈ appWords, pyContains titleLower w = true then 3
  else if ∃ p, appWords.head? = some p ∧ ∃ tw ∈ titleWords, tw = p ∨ p.isPrefixOf tw = true then 2
  else if (appWords.length ≥ 2 ∧ ∀ aw ∈ appWords, ∃ tw ∈ titleWords, ratio aw tw > mkRat 7 10)
        ∨ (appWords.length = 1 ∧ ∃ p, appWords.head? = some p ∧ ∃ tw ∈ titleWords, ratio p tw > mkRat 85 100)
  then 1
  else 0

/-! ### Session cache (`_cache_window` / `_get_cached_window`, lines 1791-1821) -/

/-- One `_window_cache` entry: `{handle, title, pid, last_seen}`. -/
structure CacheEntry where
  handle : ℤ
  title : Str
  pid : ℤ
  last_seen : ℚ
  deriving Repr, DecidableEq

/-- The session cache, keyed by lower-cased application name
(a Python dict: keys are unique). -/
abbrev Cache := List (Str × CacheEntry)

/-- Dict lookup. -/
def cacheLookup (k : Str) : Cache → Option CacheEntry
  | [] => none
  | (k', e) :: rest => if k' = k then some e else cacheLookup k rest

/-- Dict `del`. -/
def cacheErase (k : Str) (c : Cache) : Cache :=
  c.filter (fun p => p.1 ≠ k)

/-- In-place mutation `cached["last_seen"] = now`. -/
def cacheRefresh (k : Str) (now : ℚ) : Cache → Cache
  | [] => []
  | (k2, e) :: rest =>
    if k2 = k then (k2, { e with last_seen := now }) :: cacheRefresh k now rest
    else (k2, e) :: cacheRefresh k now rest

/-- Outcome of the reconnect attempt (lines 1814-1816):
`Application().connect(handle=...)` + `top_window()` either raise
(`error`), or yield a window spec whose `exists(timeout=0.3)` check
fails (`stale`) or succeeds (`live`). -/
inductive ReconnectOutcome (W : Type) where
  | error
  | stale
  | live (w : W)

/-- `_get_cached_window(app_name)` (lines 1803-1821), returning the
reconnected window (if any) and the cache after the call's side
effects.  `reconnect` is the OS oracle for the reconnect attempt; both
`time.time()` reads of the call are the single instant `now`. -/
def get_cached_window {W : Type} (reconnect : ℤ → ReconnectOutcome W)
    (now : ℚ) (cache : Cache) (app_name : Str) : Option W × Cache :=
  let key := pyLower app_name
  match cacheLookup key cache with
  | none => (none, cache)
  | some entry =>
    if now - entry.last_seen > 60 then (none, cacheErase key cache)
    else
      match reconnect entry.handle with
      | .live w => (some w, cacheRefresh key now cache)
      | .stale => (none, cache)
      | .error => (none, cacheErase key cache)

/-! ### Set-of-Marks snapshot (`_read_state_visual`, lines 836-950)

Only the manifest (`som_elements`) is modelled; the badge/outline
drawing and JPEG encoding (lines 893-906, 918-928) touch only the
image.  `dpi_scale` is a float, modelled as `ℚ`; the screenshot
dimensions `sw × sh` are what `pyautogui.screenshot` returned. -/

/-- One element dict produced by `list_elements` (lines 430-440). -/
structure UiElement where
  text : Str
  control_type : Str
  rect : Option PyRect
  auto_id : Str := []
  deriving Repr, DecidableEq

/-- The control types labelled by Set-of-Marks (lines 872-876). -/
def interactive_types : List Str :=
  [("button").data, ("edit").data, ("checkbox").data, ("radiobutton").data,
   ("combobox").data, ("listitem").data, ("menuitem").data, ("tabitem").data,
   ("link").data, ("hyperlink").data, ("slider").data, ("spinner").data,
   ("treeitem").data]

/-- One `som_elements` manifest entry (lines 908-913). -/
structure SomEntry where
  som_id : ℕ
  text : Str
  type : Str
  rect : PyRect
  deriving Repr, DecidableEq

/-- The labelling loop of `_read_state_visual` (lines 865-916):
skip elements with no rect and non-interactive text-less elements;
*then* consume the next `som_id`; skip elements whose scaled origin
falls outside the screenshot; append the manifest entry; stop once the
id counter reaches 50. -/
def som_loop (wleft wtop : ℤ) (dpi : ℚ) (sw sh : ℤ) :
    List UiElement → ℕ → List SomEntry
  | [], _ => []
  | el :: rest, somId =>
    match el.rect with
    | none => som_loop wleft wtop dpi sw sh rest somId
    | some r =>
      let elType := pyLower el.control_type
      if elType ∉ interactive_types ∧ el.text = [] then
        som_loop wleft wtop dpi sw sh rest somId
      else
        let somId' := somId + 1
        let ex := pyInt (((r.x - wleft : ℤ) : ℚ) * dpi)
        let ey := pyInt (((r.y - wtop : ℤ) : ℚ) * dpi)
        if ex < 0 ∨ ey < 0 ∨ ex > sw ∨ ey > sh then
          som_loop wleft wtop dpi sw sh rest somId'
        else
          let entry : SomEntry :=
            { som_id := somId', text := el.text.take 80, type := elType, rect := r }
          if somId' ≥ 50 then [entry]
          else entry :: som_loop wleft wtop dpi sw sh rest somId'

/-- The `som_elements` manifest of one visual snapshot. -/
def som_elements (wleft wtop : ℤ) (dpi : ℚ) (sw sh : ℤ)
    (elements : List UiElement) : List SomEntry :=
  som_loop wleft wtop dpi sw sh elements 0

/-- An interactive element (one that consumes an id) whose badge origin
lies inside the screenshot, so the bounds check at line 889 does not
skip it. -/
def elementInBounds (wleft wtop : ℤ) (dpi : ℚ) (sw sh : ℤ) (el : UiElement) : Prop :=
  ∀ r, el.rect = some r →
    (pyLower el.control_type ∈ interactive_types ∨ el.text ≠ []) →
    ¬(pyInt (((r.x - wleft : ℤ) : ℚ) * dpi) < 0 ∨
      pyInt (((r.y - wtop : ℤ) : ℚ) * dpi) < 0 ∨
      pyInt (((r.x - wleft : ℤ) : ℚ) * dpi) > sw ∨
      pyInt (((r.y - wtop : ℤ) : ℚ) * dpi) > sh)

/-! ### SoM-id click (`handle_click`, lines 989-1009) -/

/-- The result dict of `handle_click` (SoM branch); absent keys are
`none` / `false`. -/
structure ClickResult where
  clicked : Bool
  method : Option Str := none
  somId : Option ℤ := none
  text : Option Str := none
  x : Option ℤ := none
  y : Option ℤ := none
  stateChanged : Option Bool := none
  error : Option Str := none
  track : Str := ("desktop").data
  dialogDetected : Bool := false
  dialogTitle : Option Str := none
  hint : Option Str := none
  deriving Repr, DecidableEq

/-- Decimal rendering of an integer, for f-string interpolation. -/
def intStr (n : ℤ) : Str := (toString n).data

/-- The focused-element snapshot `_get_focused_info` returns:
`none` models the empty dict, otherwise `(title, control_type)`. -/
abbrev FocusInfo := Option (Str × Str)

/-- The hint attached to an unexpected-dialog warning (line 1132). -/
def dialog_hint : Str :=
  ("An unexpected dialog appeared. You may need to dismiss it before continuing.").data

/-- The SoM branch of `handle_click` (lines 989-1009): look the id up in
the last visual snapshot; on a hit, click the centre of the stored rect
(`x + w // 2`, `y + h // 2`) and report `clicked=true, method=som_id`
with the pre/post focus comparison and any detected dialog merged in;
on a miss, report `clicked=false` with an error.  `pre`/`post` are the
`_get_focused_info` oracle reads around the click and `dialog` the
`_check_for_dialog` oracle result (the offending dialog title). -/
def handle_click_som (lastSom : List SomEntry) (somId : ℤ)
    (pre post : FocusInfo) (dialog : Option Str) : ClickResult :=
  match lastSom.find? (fun sel => (sel.som_id : ℤ) == somId) with
  | some sel =>
    let cx := sel.rect.x + pyFloorDiv sel.rect.w 2
    let cy := sel.rect.y + pyFloorDiv sel.rect.h 2
    let base : ClickResult :=
      { clicked := true, method := some ("som_id").data, somId := some somId,
        text := some sel.text, x := some cx, y := some cy,
        stateChanged := some (decide (pre ≠ post)) }
    match dialog with
    | some t =>
      { base with dialogDetected := true, dialogTitle := some t,
                  hint := some dialog_hint }
    | none => base
  | none =>
    { clicked := false,
      error := some (("SoM ID ").data ++ intStr somId ++
        (" not found. Run gui.read_state(mode=").data ++ [sq] ++ ("visual").data ++
        [sq] ++ (") first.").data) }

/-! ### Condition polling (`handle_wait_for`, lines 1249-1318)

Timing model: `time.time() - start` at the `k`-th loop-guard check is
`k` poll intervals, i.e. `300·k` milliseconds (each iteration sleeps
exactly the fixed `poll_interval = 0.3` and the condition checks are
instantaneous).  The per-condition OS probing inside the loop body is
the oracle `cond : ℕ → Bool`: whether the `k`-th check found the
condition met (an unrecognised condition string never matches, i.e.
`cond` constantly `false`). -/

/-- The result dict of `handle_wait_for`. -/
structure WaitResult where
  waited : Bool
  condition : Str
  target : Str
  error : Option Str := none
  track : Str := ("desktop").data
  deriving Repr, DecidableEq

/-- The timeout result (lines 1312-1318): `waited=false` with the
effective timeout reported in the error message. -/
def wait_timeout_result (condS target : Str) (timeoutMs : ℤ) : WaitResult :=
  { waited := false, condition := condS, target := target,
    error := some (("Timeout after ").data ++ intStr timeoutMs ++ ("ms").data) }

/-- The `while (time.time() - start) < timeout_s` loop (lines
1259-1311), fuel-indexed: at the `k`-th check, the guard is
`300·k < timeout_ms`; inside the guard the condition is probed and on
success the `waited=true` result is returned.  The fuel only bounds the
recursion; `handle_wait_for` passes enough fuel that the zero-fuel
branch (which returns the same timeout result the exhausted guard
would) is never the deciding one. -/
def wait_for_loop (cond : ℕ → Bool) (condS target : Str) (timeoutMs : ℤ) :
    ℕ → ℕ → WaitResult
  | 0, _ => wait_timeout_result condS target timeoutMs
  | fuel + 1, k =>
    if (300 * k : ℤ) < timeoutMs then
      if cond k then
        { waited := true, condition := condS, target := target }
      else wait_for_loop cond condS target timeoutMs fuel (k + 1)
    else wait_timeout_result condS target timeoutMs

/-- `handle_wait_for` (lines 1249-1318): cap the requested timeout at
120000 ms (2 minutes) and poll. -/
def handle_wait_for (cond : ℕ → Bool) (condS target : Str)
    (timeout_ms_arg : ℤ) : WaitResult :=
  let t := min timeout_ms_arg 120000
  wait_for_loop cond condS target t (t.toNat / 300 + 1) 0

/-! ### Text entry (`handle_type_text`, lines 1151-1192) -/

/-- Input-injection and focus actions `handle_type_text` performs, in
order.  The injection primitives themselves are modelled as
non-raising. -/
inductive TtAction where
  | focus
  | clickElement
  | clickAt (x y : ℤ)
  | write (text : Str)
  | clipboard (text : Str)
  | pressEnter
  deriving Repr, DecidableEq

/-- The result dict of `handle_type_text`. -/
structure TypeResult where
  typed : Bool
  error : Option Str := none
  textLength : Option ℕ := none
  pressEnter : Option Bool := none
  track : Str := ("desktop").data
  deriving Repr, DecidableEq

/-- What `smart_find(window, target_element)` handed back to
`handle_type_text`, projected to the fields the handler reads:
the `"found"` flag, the internal `"_element"` reference (present only
for Tier-1 matches) and the `"center"` point.  `clickRaises` is the OS
oracle for whether `element.click_input()` raised. -/
structure TargetLookup (W : Type) where
  found : Bool
  element : Option W
  center : Option PyPoint
  deriving Repr, DecidableEq

/-- `handle_type_text(args)` (lines 1151-1192).  Oracles: `w1` and `w2`
are the two `find_window(app_name)` call results, `sf` the
`smart_find` result for the optional `target_element`, `clickRaises`
whether the element click raised.  Returns the result dict and the
performed action trace. -/
def handle_type_text {W : Type} (w1 w2 : Option W) (sf : TargetLookup W)
    (clickRaises : Bool) (app_name text target_element : Str)
    (press_enter : Bool) : TypeResult × List TtAction :=
  match app_name, w1 with
  | _ :: _, none =>
    ({ typed := false,
       error := some (("Window ").data ++ [sq] ++ app_name ++ [sq] ++
         (" not found").data) }, [])
  | _, _ =>
    let focusTrace : List TtAction := if app_name ≠ [] then [.focus] else []
    let clickTrace : List TtAction :=
      if target_element ≠ [] ∧ app_name ≠ [] then
        match w2 with
        | none => []
        | some _ =>
          if sf.found then
            match sf.element with
            | some _ =>
              if clickRaises then
                match sf.center with
                | some c => [.clickAt c.x c.y]
                | none => []
              else [.clickElement]
            | none => []
          else []
      else []
    let typeTrace : List TtAction :=
      match text with
      | [] => []
      | _ :: _ =>
        if text.all (fun c => c.toNat < 128) then [.write text]
        else [.clipboard text]
    let enterTrace : List TtAction := if press_enter then [.pressEnter] else []
    ({ typed := true, textLength := some text.length,
       pressEnter := some press_enter },
     focusTrace ++ clickTrace ++ typeTrace ++ enterTrace)

/-! ### Dispatch and the daemon loop (`dispatch` / `run_daemon`,
lines 1828-1918)

JSON parsing and the eight tool handlers are oracles: `parse` models
`json.loads` plus the `.get` field extraction (`none` =
`json.JSONDecodeError`), and `exec` models running a handler body
(`Except.error` = the handler raised).  Handler result dicts are
projected to the `error` field the dispatcher inspects plus an opaque
payload. -/

/-- A raised Python exception: class name, message, and the
`traceback.format_exc()` text. -/
structure ExcInfo where
  typeName : Str
  msg : Str
  tb : Str
  deriving Repr, DecidableEq

/-- A handler result dict: its `error` / `traceback` keys plus an
opaque rest. -/
structure ToolResult (ρ : Type) where
  error : Option Str := none
  traceback : Option Str := none
  payload : Option ρ := none
  deriving Repr, DecidableEq

/-- The keys of `TOOL_HANDLERS` (lines 1828-1837). -/
def tool_handlers : List Str :=
  [("gui.read_state").data, ("gui.find_element").data, ("gui.click").data,
   ("gui.type_text").data, ("gui.hotkey").data, ("gui.wait_for").data,
   ("gui.navigate").data, ("gui.screenshot_region").data]

/-- The `error` string of the dispatch-boundary catch
(line 1861: `f"[{tool_id}] {type(e).__name__}: {str(e)}"`). -/
def dispatch_error_string (toolId : Str) (e : ExcInfo) : Str :=
  ("[").data ++ toolId ++ ("] ").data ++ e.typeName ++ (": ").data ++ e.msg

/-- `dispatch(tool_id, args)` (lines 1840-1863) over a session state
`σ` (the window cache).  `exec` runs the handler; `appName` reads
`args.get("app_name", "")`; `refresh` is the opportunistic
cache-refresh step (lines 1850-1856: cached lookup first, full resolve
on a miss), which runs only when the call carried an app name and the
result has no error. -/
def dispatch {A ρ σ : Type} (exec : Str → A → Except ExcInfo (ToolResult ρ))
    (appName : A → Str) (refresh : Str → σ → σ)
    (toolId : Str) (args : A) (s : σ) : ToolResult ρ × σ :=
  if toolId ∉ tool_handlers then
    ({ error := some (("Unknown desktop tool: ").data ++ toolId) }, s)
  else
    match exec toolId args with
    | .ok result =>
      let s' := if appName args ≠ [] ∧ result.error = none
                then refresh (appName args) s else s
      (result, s')
    | .error e =>
      ({ error := some (dispatch_error_string toolId e),
         traceback := some e.tb }, s)

/-- A parsed request line: `{"id", "tool", "args"}` after the `.get`
defaulting. -/
structure Msg (A : Type) where
  id : Str
  tool : Str
  args : A
  deriving Repr, DecidableEq

/-- The body of one response line written by the daemon. -/
inductive RespBody (ρ σ : Type) where
  | pong
  | cacheDump (s : σ)
  | quitAck
  | tool (r : ToolResult ρ)
  deriving Repr, DecidableEq

/-- One stdout line of the daemon. -/
inductive OutMsg (ρ σ : Type) where
  | ready (pid : ℤ)
  | invalidJson
  | response (id : Str) (body : RespBody ρ σ)
  deriving Repr, DecidableEq

/-- The `for line in sys.stdin` loop of `run_daemon` (lines 1885-1918):
skip blank lines; answer unparsable lines with
`{"error": "Invalid JSON"}` and continue; serve `_ping` / `_cache` /
`_quit` (the latter acknowledges and breaks); dispatch everything
else, threading the session state. -/
def run_daemon_loop {A ρ σ : Type} (parse : Str → Option (Msg A))
    (exec : Str → A → Except ExcInfo (ToolResult ρ))
    (appName : A → Str) (refresh : Str → σ → σ) :
    List Str → σ → List (OutMsg ρ σ)
  | [], _ => []
  | line :: rest, s =>
    let l := pyStrip line
    if l = [] then run_daemon_loop parse exec appName refresh rest s
    else
      match parse l with
      | none => .invalidJson :: run_daemon_loop parse exec appName refresh rest s
      | some m =>
        if m.tool = ("_ping").data then
          .response m.id .pong :: run_daemon_loop parse exec appName refresh rest s
        else if m.tool = ("_cache").data then
          .response m.id (.cacheDump s) ::
            run_daemon_loop parse exec appName refresh rest s
        else if m.tool = ("_quit").data then
          [.response m.id .quitAck]
        else
          let (r, s') := dispatch exec appName refresh m.tool m.args s
          .response m.id (.tool r) ::
            run_daemon_loop parse exec appName refresh rest s'

/-- `run_daemon()` (lines 1866-1918): emit the readiness object, then
serve the input lines. -/
def run_daemon {A ρ σ : Type} (parse : Str → Option (Msg A))
    (exec : Str → A → Except ExcInfo (ToolResult ρ))
    (appName : A → Str) (refresh : Str → σ → σ)
    (pid : ℤ) (lines : List Str) (s : σ) : List (OutMsg ρ σ) :=
  .ready pid :: run_daemon_loop parse exec appName refresh lines s

theorem ocr_region_items_eq_filterMap (rx ry : ℤ) (toks : List OcrToken) :
    ocr_region_items rx ry toks =
      (toks.filter (fun tok => ¬(pyStrip tok.text = [] ∨ tok.conf < 30))).map
        (fun tok =>
          { text := pyStrip tok.text, confidence := tok.conf,
            rect := { x := rx + tok.left, y := ry + tok.top,
                      w := tok.width, h := tok.height } }) := by
  induction toks with
  | nil => rfl
  | cons tok rest ih =>
    by_cases h : pyStrip tok.text = [] ∨ tok.conf < 30 <;>
      simp [ocr_region_items, List.filter, h, ih]

/-- C1: in `smart_find` the tiers run in cascade order (Tier 1, then
Tier 2, then Tier 3); no tier call is made after a call that returned
`found=true`; and with no explicit hint and the OCR backend available,
Tier 2 tries `menu_bar`, `center`, `sidebar` in exactly that order,
stopping at the first hit, with Tier 3 reached iff all three missed. -/
theorem claim_C1 {α : Type} (tess : Bool) (t1 : Option α) (t2 : Str → Option α)
    (t3 : FullScanResult) (hint : Str) :
    List.Chain' (fun a b => tierRank a ≤ tierRank b)
      (smart_find tess t1 t2 t3 hint).2 ∧
    (smart_find tess t1 t2 t3 hint).2.head? = some .tier1 ∧
    (∀ c ∈ (smart_find tess t1 t2 t3 hint).2.dropLast,
      tierFound t1 t2 t3 c = false) ∧
    (tess = true → hint = [] → t1 = none →
      (smart_find tess t1 t2 t3 hint).2.filterMap tierHint =
        default_hints.take
          ((default_hints.takeWhile (fun h => (t2 h).isNone)).length + 1) ∧
      (TierCall.tier3 ∈ (smart_find tess t1 t2 t3 hint).2 ↔
        ∀ h ∈ default_hints, t2 h = none)) := by
  rcases t1 with _ | m
  · rcases tess with _ | _
    · simp [smart_find, tierFound, tierRank]
    · by_cases hh : hint = []
      · subst hh
        simp only [smart_find]
        rcases h1 : t2 (("menu_bar").data) with _ | m1 <;>
          rcases h2 : t2 (("center").data) with _ | m2 <;>
            rcases h3 : t2 (("sidebar").data) with _ | m3 <;>
              simp [smart_find_hint_loop, default_hints, h1, h2, h3,
                tierFound, tierHint, tierRank, List.takeWhile]
      · rcases hht : t2 hint with _ | mh <;>
          simp [smart_find, hh, hht, tierFound, tierRank]
  · simp [smart_find, tierFound]

/-- C1 witness: with the OCR backend available, Tier 1 missing, no
explicit hint and no Tier-2 hit, the recorded hint order is exactly
`menu_bar`, `center`, `sidebar` and Tier 3 is reached. -/
theorem claim_C1_witness :
    (smart_find (α := Unit) true none (fun _ => none)
        { found := false, method := ("none").data } []).2.filterMap tierHint =
      [("menu_bar").data, ("center").data, ("sidebar").data] ∧
    TierCall.tier3 ∈ (smart_find (α := Unit) true none (fun _ => none)
        { found := false, method := ("none").data } []).2 := by
  have h := claim_C1 (α := Unit) true none (fun _ => none)
    { found := false, method := ("none").data } []
  obtain ⟨-, -, -, h4⟩ := h
  obtain ⟨ha, hb⟩ := h4 rfl rfl rfl
  refine ⟨?_, hb.mpr (by simp [default_hints])⟩
  simpa [default_hints, List.takeWhile] using ha

theorem title_matches_eq_spec
    (ratio : Str → Str → ℚ) (appLower titleLower : Str)
    (hne : app_words_of appLower ≠ []) :
    title_matches ratio appLower titleLower =
      spec_title_score ratio appLower titleLower := by
  obtain ⟨primary, rest, hw⟩ : ∃ p r, app_words_of appLower = p :: r := by
    rcases h : app_words_of appLower with _ | ⟨p, r⟩
    · exact absurd h hne
    · exact ⟨p, r, rfl⟩
  rcases rest with _ | ⟨r1, rs⟩ <;>
    · simp only [title_matches, spec_title_score, hw]
      simp

/-- C2 counterexample: the claimed score characterisation fails when
the application name has no significant word (every word of length
≤ 1).  For `app_lower = "a b"` and title `"xyz"`, the spec's case
analysis gives 3 (every significant word — vacuously — appears in the
title) but `_title_matches` returns 0, because its all-words case
additionally requires at least one significant word. -/
theorem counterexample_C2 :
    ¬ ((∀ (ratio : Str → Str → ℚ) (appLower titleLower : Str),
          title_matches ratio appLower titleLower =
            spec_title_score ratio appLower titleLower) ∧
       (∀ (ratio : Str → Str → ℚ) (appLower : Str)
          (windows : List (Str × ℤ)) (h : ℤ),
          title_scan_connect ratio appLower windows = some h →
            2 ≤ (title_scan ratio appLower windows).2)) := by
  rintro ⟨hA, -⟩
  have hx := hA (fun _ _ => 0) (("a b").data) (("xyz").data)
  revert hx
  decide

/-- C2 (amended): for application names with at least one significant
word, `_title_matches` returns exactly the spec's 4/3/2/1/0 priority
cascade; and the title scan of `find_window` connects only to a window
whose best score is at least 2 — a best score of 1 (or 0) is never
accepted. -/
theorem claim_C2 :
    (∀ (ratio : Str → Str → ℚ) (appLower titleLower : Str),
       app_words_of appLower ≠ [] →
       title_matches ratio appLower titleLower =
         spec_title_score ratio appLower titleLower) ∧
    (∀ (ratio : Str → Str → ℚ) (appLower : Str) (windows : List (Str × ℤ)),
       ((title_scan ratio appLower windows).2 ≤ 1 →
          title_scan_connect ratio appLower windows = none) ∧
       (∀ h, title_scan_connect ratio appLower windows = some h →
          2 ≤ (title_scan ratio appLower windows).2 ∧
          ∃ t, (title_scan ratio appLower windows).1 = some (t, h))) := by
  refine ⟨fun ratio a t hne => title_matches_eq_spec ratio a t hne, ?_⟩
  intro ratio appLower windows
  rcases hts : title_scan ratio appLower windows with ⟨bo, s⟩
  rcases bo with _ | ⟨t0, h0⟩
  · constructor
    · intro _
      simp [title_scan_connect, hts]
    · intro h hcon
      simp [title_scan_connect, hts] at hcon
  · constructor
    · intro hle
      simp only [title_scan_connect, hts]
      rw [if_neg]
      rintro ⟨-, hge⟩
      omega
    · intro h hcon
      simp only [title_scan_connect, hts] at hcon
      split_ifs at hcon with hcond
      obtain ⟨-, hge⟩ := hcond
      cases hcon
      exact ⟨hge, t0, rfl⟩

/-- C2 witness: `"notepad"` has a significant word, so the amended
characterisation applies; against the window list
`[("Notepad 1.txt", 42)]` the scan scores 4 (exact phrase) and
connects to handle 42 with a best score of at least 2. -/
theorem claim_C2_witness :
    app_words_of (("notepad").data) ≠ [] ∧
    title_matches (fun _ _ => 0) (("notepad").data)
        (pyLower (("Notepad 1.txt").data)) =
      spec_title_score (fun _ _ => 0) (("notepad").data)
        (pyLower (("Notepad 1.txt").data)) ∧
    title_scan_connect (fun _ _ => 0) (("notepad").data)
        [((("Notepad 1.txt").data), 42)] = some 42 ∧
    2 ≤ (title_scan (fun _ _ => 0) (("notepad").data)
        [((("Notepad 1.txt").data), 42)]).2 := by
  refine ⟨by decide, claim_C2.1 _ _ _ (by decide), by decide, ?_⟩
  exact ((claim_C2.2 (fun _ _ => 0) (("notepad").data)
    [((("Notepad 1.txt").data), 42)]).2 42 (by decide)).1

theorem cacheLookup_erase (k : Str) (c : Cache) :
    cacheLookup k (cacheErase k c) = none := by
  induction c with
  | nil => rfl
  | cons p rest ih =>
    obtain ⟨k2, e⟩ := p
    by_cases h : k2 = k
    · simpa [cacheErase, List.filter, h] using ih
    · simpa [cacheErase, List.filter, h, cacheLookup] using ih

theorem cacheLookup_refresh (k : Str) (now : ℚ) (c : Cache) :
    cacheLookup k (cacheRefresh k now c) =
      (cacheLookup k c).map (fun e => { e with last_seen := now }) := by
  induction c with
  | nil => rfl
  | cons p rest ih =>
    obtain ⟨k2, e⟩ := p
    by_cases h : k2 = k
    · subst h
      simp [cacheRefresh, cacheLookup]
    · simpa [cacheRefresh, cacheLookup, h] using ih


/-- C3: the session-cache lookup reuses a cached entry only when it is
at most 60 seconds old; an entry older than 60 seconds is deleted from
the cache (not merely skipped) and the lookup returns `none`; a
successful reconnect refreshes `last_seen` to the current time; and a
reconnect failure (raised = window closed) evicts the entry and
returns `none`. -/
theorem claim_C3 {W : Type} (reconnect : ℤ → ReconnectOutcome W)
    (now : ℚ) (cache : Cache) (app : Str) :
    (∀ w, (get_cached_window reconnect now cache app).1 = some w →
       ∃ e, cacheLookup (pyLower app) cache = some e ∧
         now - e.last_seen ≤ 60 ∧ reconnect e.handle = .live w) ∧
    (∀ e, cacheLookup (pyLower app) cache = some e →
       now - e.last_seen > 60 →
       (get_cached_window reconnect now cache app).1 = none ∧
       cacheLookup (pyLower app)
         (get_cached_window reconnect now cache app).2 = none) ∧
    (∀ e w, cacheLookup (pyLower app) cache = some e →
       ¬(now - e.last_seen > 60) → reconnect e.handle = .live w →
       (get_cached_window reconnect now cache app).1 = some w ∧
       cacheLookup (pyLower app)
         (get_cached_window reconnect now cache app).2 =
           some { e with last_seen := now }) ∧
    (∀ e, cacheLookup (pyLower app) cache = some e →
       ¬(now - e.last_seen > 60) → reconnect e.handle = .error →
       (get_cached_window reconnect now cache app).1 = none ∧
       cacheLookup (pyLower app)
         (get_cached_window reconnect now cache app).2 = none) := by
  refine ⟨?_, ?_, ?_, ?_⟩
  · intro w hw
    rcases hl : cacheLookup (pyLower app) cache with _ | e
    · simp [get_cached_window, hl] at hw
    · by_cases hage : now - e.last_seen > 60
      · simp [get_cached_window, hl, hage] at hw
      · rcases hr : reconnect e.handle with _ | _ | w2
        · simp [get_cached_window, hl, hage, hr] at hw
        · simp [get_cached_window, hl, hage, hr] at hw
        · simp only [get_cached_window, hl, if_neg hage, hr] at hw
          simp only [Option.some.injEq] at hw
          subst hw
          exact ⟨e, rfl, le_of_not_lt hage, hr⟩
  · intro e hl hage
    simp only [get_cached_window, hl, if_pos hage]
    exact ⟨trivial, cacheLookup_erase _ _⟩
  · intro e w hl hage hr
    simp only [get_cached_window, hl, if_neg hage, hr]
    exact ⟨trivial, by simp [cacheLookup_refresh, hl]⟩
  · intro e hl hage hr
    simp only [get_cached_window, hl, if_neg hage, hr]
    exact ⟨trivial, cacheLookup_erase _ _⟩

/-- C3 witness: a 50-second-old entry for `"Notepad"` whose reconnect
succeeds is reused, and its `last_seen` is refreshed to the current
time. -/
theorem claim_C3_witness :
    (get_cached_window
        (fun h => if h = 7 then ReconnectOutcome.live (99 : ℤ) else .error)
        100 [((("notepad").data),
              { handle := 7, title := ("Notepad").data, pid := 1, last_seen := 50 })]
        (("Notepad").data)).1 = some 99 ∧
    cacheLookup (pyLower (("Notepad").data))
      (get_cached_window
        (fun h => if h = 7 then ReconnectOutcome.live (99 : ℤ) else .error)
        100 [((("notepad").data),
              { handle := 7, title := ("Notepad").data, pid := 1, last_seen := 50 })]
        (("Notepad").data)).2 =
      some { handle := 7, title := ("Notepad").data, pid := 1, last_seen := 100 } := by
  exact (claim_C3 (W := ℤ)
    (fun h => if h = 7 then ReconnectOutcome.live (99 : ℤ) else .error)
    100 [((("notepad").data),
          { handle := 7, title := ("Notepad").data, pid := 1, last_seen := 50 })]
    (("Notepad").data)).2.2.1
    { handle := 7, title := ("Notepad").data, pid := 1, last_seen := 50 } 99
    (by decide) (by norm_num) rfl

theorem som_loop_ids (wl wt : ℤ) (dpi : ℚ) (sw sh : ℤ) :
    ∀ (l : List UiElement) (somId : ℕ),
      List.Pairwise (· < ·)
        ((som_loop wl wt dpi sw sh l somId).map SomEntry.som_id) ∧
      (∀ s ∈ som_loop wl wt dpi sw sh l somId, somId < s.som_id) ∧
      (som_loop wl wt dpi sw sh l somId).length ≤ max (50 - somId) 1
  | [], somId => by simp [som_loop]
  | el :: rest, somId => by
    rcases hrect : el.rect with _ | r
    · simpa [som_loop, hrect] using som_loop_ids wl wt dpi sw sh rest somId
    · by_cases hskip : pyLower el.control_type ∉ interactive_types ∧ el.text = []
      · simpa [som_loop, hrect, hskip] using som_loop_ids wl wt dpi sw sh rest somId
      · by_cases hbound : pyInt (((r.x - wl : ℤ) : ℚ) * dpi) < 0 ∨
            pyInt (((r.y - wt : ℤ) : ℚ) * dpi) < 0 ∨
            pyInt (((r.x - wl : ℤ) : ℚ) * dpi) > sw ∨
            pyInt (((r.y - wt : ℤ) : ℚ) * dpi) > sh
        · obtain ⟨hp, hm, hl⟩ := som_loop_ids wl wt dpi sw sh rest (somId + 1)
          have hmain : som_loop wl wt dpi sw sh (el :: rest) somId =
              som_loop wl wt dpi sw sh rest (somId + 1) := by
            simp only [som_loop, hrect]
            rw [if_neg hskip, if_pos hbound]
          rw [hmain]
          refine ⟨hp, ?_, ?_⟩
          · intro s hs
            have := hm s hs
            omega
          · omega
        · by_cases hbig : somId + 1 ≥ 50
          · have hmain : som_loop wl wt dpi sw sh (el :: rest) somId =
                [{ som_id := somId + 1, text := el.text.take 80,
                   type := pyLower el.control_type, rect := r }] := by
              simp only [som_loop, hrect]
              rw [if_neg hskip, if_neg hbound, if_pos hbig]
            rw [hmain]
            refine ⟨by simp, ?_, by simp⟩
            intro s hs
            rcases List.mem_singleton.mp hs with rfl
            simp
          · obtain ⟨hp, hm, hl⟩ := som_loop_ids wl wt dpi sw sh rest (somId + 1)
            have hmain : som_loop wl wt dpi sw sh (el :: rest) somId =
                { som_id := somId + 1, text := el.text.take 80,
                  type := pyLower el.control_type, rect := r } ::
                  som_loop wl wt dpi sw sh rest (somId + 1) := by
              simp only [som_loop, hrect]
              rw [if_neg hskip, if_neg hbound, if_neg hbig]
            rw [hmain]
            refine ⟨?_, ?_, ?_⟩
            · rw [List.map_cons, List.pairwise_cons]
              refine ⟨?_, hp⟩
              intro b hb
              obtain ⟨s, hs, rfl⟩ := List.mem_map.mp hb
              exact hm s hs
            · intro s hs
              rcases List.mem_cons.mp hs with rfl | hs2
              · simp
              · have := hm s hs2
                omega
            · have := hl
              simp only [List.length_cons]
              omega

theorem som_loop_range (wl wt : ℤ) (dpi : ℚ) (sw sh : ℤ) :
    ∀ (l : List UiElement) (somId : ℕ),
      (∀ el ∈ l, elementInBounds wl wt dpi sw sh el) →
      (som_loop wl wt dpi sw sh l somId).map SomEntry.som_id =
        List.range' (somId + 1) (som_loop wl wt dpi sw sh l somId).length
  | [], somId => by simp [som_loop]
  | el :: rest, somId => by
    intro hb
    have hbrest : ∀ e ∈ rest, elementInBounds wl wt dpi sw sh e :=
      fun e he => hb e (by simp [he])
    rcases hrect : el.rect with _ | r
    · simpa [som_loop, hrect] using som_loop_range wl wt dpi sw sh rest somId hbrest
    · by_cases hskip : pyLower el.control_type ∉ interactive_types ∧ el.text = []
      · simpa [som_loop, hrect, hskip] using
          som_loop_range wl wt dpi sw sh rest somId hbrest
      · have hint : pyLower el.control_type ∈ interactive_types ∨ el.text ≠ [] := by
          tauto
        have hinb := hb el (by simp) r hrect hint
        by_cases hbig : somId + 1 ≥ 50
        · have hmain : som_loop wl wt dpi sw sh (el :: rest) somId =
              [{ som_id := somId + 1, text := el.text.take 80,
                 type := pyLower el.control_type, rect := r }] := by
            simp only [som_loop, hrect]
            rw [if_neg hskip, if_neg hinb, if_pos hbig]
          rw [hmain]
          rfl
        · have ih := som_loop_range wl wt dpi sw sh rest (somId + 1) hbrest
          have hmain : som_loop wl wt dpi sw sh (el :: rest) somId =
              { som_id := somId + 1, text := el.text.take 80,
                type := pyLower el.control_type, rect := r } ::
                som_loop wl wt dpi sw sh rest (somId + 1) := by
            simp only [som_loop, hrect]
            rw [if_neg hskip, if_neg hinb, if_neg hbig]
          rw [hmain, List.map_cons, List.length_cons, ih]
          rfl

/-- C4 counterexample: the ids of a visual snapshot are not always the
dense range `1..N`.  An interactive element whose badge origin falls
left of the screenshot consumes id 1 and is then skipped by the bounds
check, so the next element is recorded with `som_id = 2` and the
manifest's id list is `[2]`, not `[1]`. -/
theorem counterexample_C4 :
    ¬ (∀ (wleft wtop : ℤ) (dpi : ℚ) (sw sh : ℤ) (elements : List UiElement),
         (som_elements wleft wtop dpi sw sh elements).map SomEntry.som_id =
           List.range' 1
             (som_elements wleft wtop dpi sw sh elements).length ∧
         (som_elements wleft wtop dpi sw sh elements).length ≤ 50) := by
  intro h
  have hx := (h 0 0 1 800 600
    [{ text := [], control_type := ("Button").data, rect := some ⟨-50, 10, 10, 10⟩ },
     { text := [], control_type := ("Button").data, rect := some ⟨10, 10, 30, 30⟩ }]).1
  have heval : som_elements 0 0 1 800 600
      [{ text := [], control_type := ("Button").data, rect := some ⟨-50, 10, 10, 10⟩ },
       { text := [], control_type := ("Button").data, rect := some ⟨10, 10, 30, 30⟩ }] =
      [{ som_id := 2, text := [], type := ("button").data, rect := ⟨10, 10, 30, 30⟩ }] := by
    have hb : pyLower (("Button").data) = ("button").data := by decide
    have hmem : (("button").data) ∈ interactive_types := by decide
    have hc : (⌈(-50 : ℚ)⌉ : ℤ) = -50 := by
      rw [show ((-50 : ℚ)) = ((-50 : ℤ) : ℚ) by norm_num, Int.ceil_intCast]
    have hf : (⌊(10 : ℚ)⌋ : ℤ) = 10 := by
      rw [show ((10 : ℚ)) = ((10 : ℤ) : ℚ) by norm_num, Int.floor_intCast]
    simp [som_elements, som_loop, hb, hmem, pyInt, mul_one, hc, hf]
  rw [heval] at hx
  simp [List.range'] at hx

/-- C4 (amended): the `som_id` values of a visual snapshot are strictly
increasing positive integers and at most 50 elements are labeled per
snapshot; they are the dense range `1..N` exactly as claimed whenever
no interactive element is discarded by the screenshot-bounds check (an
out-of-bounds element consumes an id and leaves a gap). -/
theorem claim_C4 (wleft wtop : ℤ) (dpi : ℚ) (sw sh : ℤ)
    (elements : List UiElement) :
    List.Pairwise (· < ·)
      ((som_elements wleft wtop dpi sw sh elements).map SomEntry.som_id) ∧
    (∀ s ∈ som_elements wleft wtop dpi sw sh elements, 1 ≤ s.som_id) ∧
    (som_elements wleft wtop dpi sw sh elements).length ≤ 50 ∧
    ((∀ el ∈ elements, elementInBounds wleft wtop dpi sw sh el) →
      (som_elements wleft wtop dpi sw sh elements).map SomEntry.som_id =
        List.range' 1
          (som_elements wleft wtop dpi sw sh elements).length) := by
  obtain ⟨hp, hm, hl⟩ := som_loop_ids wleft wtop dpi sw sh elements 0
  refine ⟨hp, ?_, by simpa using hl, ?_⟩
  · intro s hs
    exact hm s hs
  · intro hb
    simpa using som_loop_range wleft wtop dpi sw sh elements 0 hb

/-- C4 witness: two in-bounds buttons receive the dense ids `[1, 2]`. -/
theorem claim_C4_witness :
    (som_elements 0 0 1 800 600
      [{ text := [], control_type := ("Button").data, rect := some ⟨10, 10, 30, 30⟩ },
       { text := [], control_type := ("Button").data, rect := some ⟨40, 40, 30, 30⟩ }]).map
        SomEntry.som_id =
      List.range' 1
        (som_elements 0 0 1 800 600
          [{ text := [], control_type := ("Button").data, rect := some ⟨10, 10, 30, 30⟩ },
           { text := [], control_type := ("Button").data, rect := some ⟨40, 40, 30, 30⟩ }]).length := by
  refine (claim_C4 0 0 1 800 600 _).2.2.2 ?_
  intro el hel r hr hint
  have hf10 : (⌊(10 : ℚ)⌋ : ℤ) = 10 := by
    rw [show ((10 : ℚ)) = ((10 : ℤ) : ℚ) by norm_num, Int.floor_intCast]
  have hf40 : (⌊(40 : ℚ)⌋ : ℤ) = 40 := by
    rw [show ((40 : ℚ)) = ((40 : ℤ) : ℚ) by norm_num, Int.floor_intCast]
  simp only [List.mem_cons, List.not_mem_nil, or_false] at hel
  rcases hel with rfl | rfl <;>
    · cases hr
      simp [pyInt, mul_one, hf10, hf40]

theorem isPrefixOf_append_self (n c : Str) : n.isPrefixOf (n ++ c) = true := by
  induction n with
  | nil => simp [List.isPrefixOf]
  | cons a as ih => simp [List.isPrefixOf, ih]

theorem pyContains_nil_needle (hay : Str) : pyContains hay [] = true := by
  cases hay <;> simp [pyContains, List.isPrefixOf]

theorem pyContains_append_right (a b n : Str) (h : pyContains b n = true) :
    pyContains (a ++ b) n = true := by
  induction a with
  | nil => simpa using h
  | cons x xs ih => simp [pyContains, ih]

theorem pyContains_self_append (n c : Str) : pyContains (n ++ c) n = true := by
  cases n with
  | nil => exact pyContains_nil_needle c
  | cons x xs =>
    simp [pyContains, isPrefixOf_append_self]

theorem tesseract_error_mentions_backend (txt : Str) :
    pyContains (tesseract_missing_error txt) (("Tesseract").data) = true := by
  simp only [tesseract_missing_error, List.append_assoc]
  apply pyContains_append_right
  apply pyContains_append_right
  apply pyContains_append_right
  apply pyContains_append_right
  apply pyContains_append_right
  exact pyContains_self_append _ _

/-- C5: when the OCR backend is available, text was recognised, and
neither an exact substring match nor a fuzzy match above 0.55 exists,
the Tier-3 scan reports `found=false` with a diagnostic payload of at
most the first 50 recognised tokens (text and screen rectangle each),
flagged `needs_llm` for external interpretation; and when the backend
is absent the result is `found=false` with a remediation hint that
names Tesseract and how to install it, plus an `install_hint` field. -/
theorem claim_C5 :
    (∀ (ratio : Str → Str → ℚ) (wx wy ww wh : ℤ) (ocr : List OcrToken)
       (txt : Str) (items : List FullOcrItem),
       items = full_scan_items wx wy
         (if ww > 1280 then Rat.divInt 1280 ww else 1) ocr 0 →
       0 < ww → 0 < wh → items ≠ [] →
       items.find? (fun it => pyLower txt == pyLower it.text ||
         pyContains (pyLower it.text) (pyLower txt)) = none →
       best_fuzzy_match ratio txt (fun it => it.text) items (mkRat 55 100) = none →
       locate_via_full_scan ratio true wx wy ww wh ocr txt =
         { found := false, method := ("ocr_full_no_match").data,
           error := some (("OCR found ").data ++ natStr items.length ++
             (" text items but none matched ").data ++ [sq] ++ txt ++ [sq]),
           ocrDump := some ((items.take 50).map fun it =>
             { index := it.index, text := it.text, rect := it.rect }),
           ocrItemCount := some items.length,
           needsLlm := true } ∧
       ((items.take 50).map fun it =>
         ({ index := it.index, text := it.text, rect := it.rect } : DumpItem)).length ≤ 50) ∧
    (∀ (ratio : Str → Str → ℚ) (wx wy ww wh : ℤ) (ocr : List OcrToken) (txt : Str),
       locate_via_full_scan ratio false wx wy ww wh ocr txt =
         { found := false, method := ("none").data,
           error := some (tesseract_missing_error txt),
           tesseractAvailable := some false,
           installHint := some tesseract_install_hint } ∧
       pyContains (tesseract_missing_error txt) (("Tesseract").data) = true) := by
  constructor
  · intro ratio wx wy ww wh ocr txt items hitems hww hwh hne hfind hfuzz
    subst hitems
    constructor
    · simp only [locate_via_full_scan]
      rw [if_neg (by simp), if_neg (by omega), if_neg hne, hfind, hfuzz]
    · simp only [List.length_map, List.length_take]
      omega
  · intro ratio wx wy ww wh ocr txt
    exact ⟨by simp [locate_via_full_scan], tesseract_error_mentions_backend txt⟩

/-- C5 witness: one recognised token `"Hello"` at confidence 50 with no
match for `"Goodbye"` yields the `ocr_full_no_match` dump; and with the
backend absent the result names Tesseract. -/
theorem claim_C5_witness :
    locate_via_full_scan (fun _ _ => 0) true 0 0 800 600
        [{ text := ("Hello").data, conf := 50, left := 5, top := 5,
           width := 20, height := 10 }] (("Goodbye").data) =
      { found := false, method := ("ocr_full_no_match").data,
        error := some (("OCR found ").data ++ natStr 1 ++
          (" text items but none matched ").data ++ [sq] ++ ("Goodbye").data ++ [sq]),
        ocrDump := some [{ index := 0, text := ("Hello").data,
                           rect := { x := 5, y := 5, w := 20, h := 10 } }],
        ocrItemCount := some 1,
        needsLlm := true } ∧
    locate_via_full_scan (fun _ _ => 0) false 0 0 800 600 []
        (("Goodbye").data) =
      { found := false, method := ("none").data,
        error := some (tesseract_missing_error (("Goodbye").data)),
        tesseractAvailable := some false,
        installHint := some tesseract_install_hint } := by
  constructor
  · have h := (claim_C5.1 (fun _ _ => 0) 0 0 800 600
      [{ text := ("Hello").data, conf := 50, left := 5, top := 5,
         width := 20, height := 10 }] (("Goodbye").data)
      [{ text := ("Hello").data, confidence := 50,
         rect := { x := 5, y := 5, w := 20, h := 10 }, index := 0 }]
      (by decide) (by decide) (by decide) (by decide) (by decide) (by decide)).1
    simpa using h
  · exact (claim_C5.2 (fun _ _ => 0) 0 0 800 600 [] (("Goodbye").data)).1

theorem full_scan_items_proj (wx wy : ℤ) (scale : ℚ) :
    ∀ (toks : List OcrToken) (idx : ℕ),
      (full_scan_items wx wy scale toks idx).map (fun it => (it.text, it.confidence)) =
        (toks.filter fun tok => decide (pyStrip tok.text ≠ [] ∧ 20 ≤ tok.conf)).map
          (fun tok => (pyStrip tok.text, tok.conf))
  | [], idx => by simp [full_scan_items]
  | tok :: rest, idx => by
    rcases Decidable.em (pyStrip tok.text = [] ∨ tok.conf < 20) with h | h
    · have hp : ¬(pyStrip tok.text ≠ [] ∧ 20 ≤ tok.conf) := by
        rcases h with h | h
        · tauto
        · intro hc
          omega
      simp [full_scan_items, h, hp, full_scan_items_proj wx wy scale rest idx]
    · have hp : pyStrip tok.text ≠ [] ∧ 20 ≤ tok.conf := by
        push_neg at h
        exact ⟨h.1, by omega⟩
      simp only [full_scan_items]
      rw [if_neg h]
      simp [full_scan_items_proj wx wy scale rest (idx + 1), hp]

/-- C6: a raw OCR token becomes a Tier-2 candidate iff its trimmed text
is non-empty and its confidence is at least 30 (confidence 29 is
excluded, 30 included), and a Tier-3 candidate iff its trimmed text is
non-empty and its confidence is at least 20. -/
theorem claim_C6 :
    (∀ (rx ry : ℤ) (toks : List OcrToken),
       ocr_region_items rx ry toks =
         (toks.filter fun tok => decide (pyStrip tok.text ≠ [] ∧ 30 ≤ tok.conf)).map
           (fun tok =>
             { text := pyStrip tok.text, confidence := tok.conf,
               rect := { x := rx + tok.left, y := ry + tok.top,
                         w := tok.width, h := tok.height } })) ∧
    (∀ (wx wy : ℤ) (scale : ℚ) (toks : List OcrToken) (idx : ℕ),
       (full_scan_items wx wy scale toks idx).map (fun it => (it.text, it.confidence)) =
         (toks.filter fun tok => decide (pyStrip tok.text ≠ [] ∧ 20 ≤ tok.conf)).map
           (fun tok => (pyStrip tok.text, tok.conf))) ∧
    ocr_region_items 0 0
      [{ text := ("OK").data, conf := 29, left := 3, top := 4, width := 10, height := 12 }] =
      [] ∧
    ocr_region_items 0 0
      [{ text := ("OK").data, conf := 30, left := 3, top := 4, width := 10, height := 12 }] =
      [{ text := ("OK").data, confidence := 30,
         rect := { x := 3, y := 4, w := 10, h := 12 } }] := by
  refine ⟨?_, full_scan_items_proj, by decide, by decide⟩
  intro rx ry toks
  rw [ocr_region_items_eq_filterMap]
  have hf : ∀ x ∈ toks,
      (decide (¬(pyStrip x.text = [] ∨ x.conf < 30)) : Bool) =
        decide (pyStrip x.text ≠ [] ∧ 30 ≤ x.conf) := by
    intro x _
    simp only [decide_eq_decide, not_or, not_lt, ne_eq]
  rw [List.filter_congr hf]

/-- C7: a click request whose `som_id` is present in the last visual
snapshot clicks the centre of the stored rect, computed with integer
truncation as `(x + w // 2, y + h // 2)`, and reports `clicked=true`
with method `som_id` and no error; a `som_id` absent from the snapshot
yields `clicked=false` with an error. -/
theorem claim_C7 (lastSom : List SomEntry) (somId : ℤ)
    (pre post : FocusInfo) (dialog : Option Str) :
    (∀ sel, lastSom.find? (fun sel => (sel.som_id : ℤ) == somId) = some sel →
       (handle_click_som lastSom somId pre post dialog).clicked = true ∧
       (handle_click_som lastSom somId pre post dialog).method =
         some (("som_id").data) ∧
       (handle_click_som lastSom somId pre post dialog).x =
         some (sel.rect.x + pyFloorDiv sel.rect.w 2) ∧
       (handle_click_som lastSom somId pre post dialog).y =
         some (sel.rect.y + pyFloorDiv sel.rect.h 2) ∧
       (handle_click_som lastSom somId pre post dialog).error = none) ∧
    (lastSom.find? (fun sel => (sel.som_id : ℤ) == somId) = none →
       (handle_click_som lastSom somId pre post dialog).clicked = false ∧
       (handle_click_som lastSom somId pre post dialog).error.isSome = true) := by
  constructor
  · intro sel hfind
    rcases dialog with _ | t <;>
      simp [handle_click_som, hfind]
  · intro hfind
    simp [handle_click_som, hfind]

/-- C7 witness: scenario D — id 5 stored at rect `(100, 200, 40, 20)`
is clicked at centre `(120, 210)` with `clicked=true, method=som_id`;
id 6 is absent and yields `clicked=false` with an error. -/
theorem claim_C7_witness :
    (handle_click_som
        [{ som_id := 5, text := ("OK").data, type := ("button").data,
           rect := { x := 100, y := 200, w := 40, h := 20 } }]
        5 none none none).clicked = true ∧
    (handle_click_som
        [{ som_id := 5, text := ("OK").data, type := ("button").data,
           rect := { x := 100, y := 200, w := 40, h := 20 } }]
        5 none none none).method = some (("som_id").data) ∧
    (handle_click_som
        [{ som_id := 5, text := ("OK").data, type := ("button").data,
           rect := { x := 100, y := 200, w := 40, h := 20 } }]
        5 none none none).x = some 120 ∧
    (handle_click_som
        [{ som_id := 5, text := ("OK").data, type := ("button").data,
           rect := { x := 100, y := 200, w := 40, h := 20 } }]
        5 none none none).y = some 210 ∧
    (handle_click_som
        [{ som_id := 5, text := ("OK").data, type := ("button").data,
           rect := { x := 100, y := 200, w := 40, h := 20 } }]
        6 none none none).clicked = false := by
  have h := (claim_C7
    [{ som_id := 5, text := ("OK").data, type := ("button").data,
       rect := { x := 100, y := 200, w := 40, h := 20 } }]
    5 none none none).1
    { som_id := 5, text := ("OK").data, type := ("button").data,
      rect := { x := 100, y := 200, w := 40, h := 20 } } (by decide)
  have h2 := (claim_C7
    [{ som_id := 5, text := ("OK").data, type := ("button").data,
       rect := { x := 100, y := 200, w := 40, h := 20 } }]
    6 none none none).2 (by decide)
  exact ⟨h.1, h.2.1, by rw [h.2.2.1]; decide, by rw [h.2.2.2.1]; decide, h2.1⟩

theorem dispatch_error_contains_tool (toolId : Str) (e : ExcInfo) :
    toolId <:+: dispatch_error_string toolId e :=
  ⟨("[").data, ("] ").data ++ e.typeName ++ (": ").data ++ e.msg, by
    simp [dispatch_error_string, List.append_assoc]⟩

theorem dispatch_error_contains_type (toolId : Str) (e : ExcInfo) :
    e.typeName <:+: dispatch_error_string toolId e :=
  ⟨("[").data ++ toolId ++ ("] ").data, (": ").data ++ e.msg, by
    simp [dispatch_error_string, List.append_assoc]⟩

/-- C8: a non-blank input line that fails to parse as JSON makes the
daemon emit `{"error": "Invalid JSON"}` and continue with the remaining
lines unchanged; and when a dispatched handler raises, the dispatch
boundary converts the exception into a structured error result whose
error string contains the failing tool name and the exception class
name and whose `traceback` field carries the trace — the loop then
continues serving the remaining lines. -/
theorem claim_C8 {A ρ σ : Type} (parse : Str → Option (Msg A))
    (exec : Str → A → Except ExcInfo (ToolResult ρ))
    (appName : A → Str) (refresh : Str → σ → σ) (s : σ) (rest : List Str) :
    (∀ line, pyStrip line ≠ [] → parse (pyStrip line) = none →
       run_daemon_loop parse exec appName refresh (line :: rest) s =
         .invalidJson :: run_daemon_loop parse exec appName refresh rest s) ∧
    (∀ line m e, pyStrip line ≠ [] → parse (pyStrip line) = some m →
       m.tool ∈ tool_handlers → exec m.tool m.args = .error e →
       run_daemon_loop parse exec appName refresh (line :: rest) s =
         OutMsg.response m.id
             (.tool { error := some (dispatch_error_string m.tool e),
                      traceback := some e.tb, payload := none }) ::
           run_daemon_loop parse exec appName refresh rest s ∧
       m.tool <:+: dispatch_error_string m.tool e ∧
       e.typeName <:+: dispatch_error_string m.tool e) := by
  constructor
  · intro line hline hparse
    simp only [run_daemon_loop]
    rw [if_neg hline, hparse]
  · intro line m e hline hparse hmem hexec
    have hne1 : m.tool ≠ ("_ping").data := by
      rintro h
      rw [h] at hmem
      revert hmem
      decide
    have hne2 : m.tool ≠ ("_cache").data := by
      rintro h
      rw [h] at hmem
      revert hmem
      decide
    have hne3 : m.tool ≠ ("_quit").data := by
      rintro h
      rw [h] at hmem
      revert hmem
      decide
    refine ⟨?_, dispatch_error_contains_tool m.tool e,
      dispatch_error_contains_type m.tool e⟩
    simp only [run_daemon_loop]
    rw [if_neg hline, hparse]
    simp only [dispatch]
    rw [if_neg hne1, if_neg hne2, if_neg hne3, if_neg (not_not_intro hmem), hexec]

/-- C8 witness: the line `"bad"` fails to parse and produces the
Invalid-JSON response while the loop continues; the line `"go"`
parses to a `gui.click` request whose handler raises `ValueError`, and
the loop emits the structured error response and terminates normally
on end of input. -/
theorem claim_C8_witness :
    run_daemon_loop
        (fun l => if l = ("bad").data then none
          else some { id := ("1").data, tool := ("gui.click").data, args := () })
        (fun _ _ => Except.error
          { typeName := ("ValueError").data, msg := ("boom").data,
            tb := ("tb text").data })
        (fun _ => []) (fun _ x => x)
        [("bad").data, ("go").data] () =
      [OutMsg.invalidJson,
       OutMsg.response (("1").data)
         (.tool (ρ := Unit) (σ := Unit)
           { error := some (dispatch_error_string (("gui.click").data)
               { typeName := ("ValueError").data, msg := ("boom").data,
                 tb := ("tb text").data }),
             traceback := some (("tb text").data), payload := none })] := by
  have hc := claim_C8 (A := Unit) (ρ := Unit) (σ := Unit)
    (fun l => if l = ("bad").data then none
      else some { id := ("1").data, tool := ("gui.click").data, args := () })
    (fun _ _ => Except.error
      { typeName := ("ValueError").data, msg := ("boom").data,
        tb := ("tb text").data })
    (fun _ => []) (fun _ x => x) ()
  have h1 := (hc [("go").data]).1 (("bad").data) (by decide) (by decide)
  have h2 := ((claim_C8 (A := Unit) (ρ := Unit) (σ := Unit)
    (fun l => if l = ("bad").data then none
      else some { id := ("1").data, tool := ("gui.click").data, args := () })
    (fun _ _ => Except.error
      { typeName := ("ValueError").data, msg := ("boom").data,
        tb := ("tb text").data })
    (fun _ => []) (fun _ x => x) () []).2 (("go").data)
    { id := ("1").data, tool := ("gui.click").data, args := () }
    { typeName := ("ValueError").data, msg := ("boom").data,
      tb := ("tb text").data }
    (by decide) (by decide) (by decide) rfl).1
  rw [h1, h2]
  rfl

theorem wait_for_loop_timeout (cond : ℕ → Bool) (condS target : Str) (T : ℤ) :
    ∀ (fuel k : ℕ), (∀ j, k ≤ j → ¬(300 * (j : ℤ) < T ∧ cond j = true)) →
      wait_for_loop cond condS target T fuel k = wait_timeout_result condS target T
  | 0, k => fun _ => rfl
  | fuel + 1, k => by
    intro h
    simp only [wait_for_loop]
    by_cases hg : (300 * (k : ℤ)) < T
    · rw [if_pos hg]
      have hck : cond k = false := by
        by_cases hb : cond k = true
        · exact absurd ⟨hg, hb⟩ (h k le_rfl)
        · simpa using hb
      rw [hck]
      simp only [Bool.false_eq_true, if_false]
      exact wait_for_loop_timeout cond condS target T fuel (k + 1)
        (fun j hj => h j (by omega))
    · rw [if_neg hg]

theorem wait_for_loop_found (cond : ℕ → Bool) (condS target : Str) (T : ℤ) :
    ∀ (fuel k : ℕ), T ≤ 300 * ((k : ℤ) + (fuel : ℤ)) →
      (∃ j, k ≤ j ∧ 300 * (j : ℤ) < T ∧ cond j = true) →
      (wait_for_loop cond condS target T fuel k).waited = true
  | 0, k => by
    rintro had ⟨j, hkj, hjT, -⟩
    exfalso
    omega
  | fuel + 1, k => by
    rintro had ⟨j, hkj, hjT, hcj⟩
    simp only [wait_for_loop]
    have hg : (300 * (k : ℤ)) < T := by omega
    rw [if_pos hg]
    by_cases hck : cond k = true
    · rw [if_pos hck]
    · have hckf : cond k = false := by simpa using hck
      rw [hckf]
      simp only [Bool.false_eq_true, if_false]
      apply wait_for_loop_found cond condS target T fuel (k + 1) (by omega)
      have hjk : j ≠ k := by
        rintro rfl
        exact hck hcj
      exact ⟨j, by omega, hjT, hcj⟩

/-- C9: the effective wait budget of `handle_wait_for` is the requested
timeout capped at 120000 ms; the condition is polled at the fixed
300 ms interval, so the call succeeds iff the condition holds at some
poll `k` with `300·k` inside the budget; and when the condition is
never met within the budget the call returns the timeout result —
`waited=false` with the elapsed budget reported in the error. -/
theorem claim_C9 (cond : ℕ → Bool) (condS target : Str) (req : ℤ) :
    min req 120000 ≤ 120000 ∧
    ((handle_wait_for cond condS target req).waited = true ↔
      ∃ k : ℕ, 300 * (k : ℤ) < min req 120000 ∧ cond k = true) ∧
    ((¬ ∃ k : ℕ, 300 * (k : ℤ) < min req 120000 ∧ cond k = true) →
      handle_wait_for cond condS target req =
        wait_timeout_result condS target (min req 120000)) := by
  refine ⟨min_le_right _ _, ⟨?_, ?_⟩, ?_⟩
  · intro hw
    by_contra hne
    have ht := wait_for_loop_timeout cond condS target (min req 120000)
      ((min req 120000).toNat / 300 + 1) 0
      (fun j _ hj => hne ⟨j, hj.1, hj.2⟩)
    simp only [handle_wait_for] at hw
    rw [ht] at hw
    simp [wait_timeout_result] at hw
  · rintro ⟨k, hk, hck⟩
    simp only [handle_wait_for]
    apply wait_for_loop_found cond condS target (min req 120000) _ 0 (by omega)
    exact ⟨k, Nat.zero_le k, hk, hck⟩
  · intro hne
    simp only [handle_wait_for]
    exact wait_for_loop_timeout cond condS target (min req 120000) _ 0
      (fun j _ hj => hne ⟨j, hj.1, hj.2⟩)

/-- C9 witness: with a 3000 ms request a condition first true at the
fifth poll (1200 ms elapsed) yields `waited=true`; a never-true
condition with a 500 ms request returns the timeout result reporting
500 ms; and a 200000 ms request is capped at 120000 ms. -/
theorem claim_C9_witness :
    (handle_wait_for (fun k => decide (4 ≤ k)) (("window_exists").data)
      (("Notepad").data) 3000).waited = true ∧
    handle_wait_for (fun _ => false) (("window_exists").data)
      (("Notepad").data) 500 =
      wait_timeout_result (("window_exists").data) (("Notepad").data) 500 ∧
    min (200000 : ℤ) 120000 ≤ 120000 := by
  refine ⟨?_, ?_, (claim_C9 (fun _ => false) [] [] 200000).1⟩
  · exact (claim_C9 (fun k => decide (4 ≤ k)) (("window_exists").data)
      (("Notepad").data) 3000).2.1.mpr ⟨4, by decide, by decide⟩
  · have hmin : min (500 : ℤ) 120000 = 500 := by omega
    have h := (claim_C9 (fun _ => false) (("window_exists").data)
      (("Notepad").data) 500).2.2 ?_
    · rw [h, hmin]
    · rintro ⟨k, -, hk⟩
      cases hk

/-- C10: when the target window resolves, `handle_type_text` returns
`typed=true` with no error regardless of whether the optional target
element was located or its click raised — the result dict does not
depend on the target-element lookup or click outcome at all — and the
text is still injected (keystroke write for ASCII text, clipboard paste
otherwise). -/
theorem claim_C10 {W : Type} (w : W) (w2 : Option W) (sf : TargetLookup W)
    (clickRaises : Bool) (app text target : Str) (press_enter : Bool)
    (happ : app ≠ []) :
    (handle_type_text (some w) w2 sf clickRaises app text target
      press_enter).1.typed = true ∧
    (handle_type_text (some w) w2 sf clickRaises app text target
      press_enter).1.error = none ∧
    (text ≠ [] →
      TtAction.write text ∈ (handle_type_text (some w) w2 sf clickRaises
        app text target press_enter).2 ∨
      TtAction.clipboard text ∈ (handle_type_text (some w) w2 sf clickRaises
        app text target press_enter).2) ∧
    (∀ (sf2 : TargetLookup W) (cr2 : Bool),
      (handle_type_text (some w) w2 sf clickRaises app text target
        press_enter).1 =
      (handle_type_text (some w) w2 sf2 cr2 app text target press_enter).1) := by
  rcases app with _ | ⟨a, as⟩
  · exact absurd rfl happ
  · refine ⟨rfl, rfl, ?_, fun sf2 cr2 => rfl⟩
    intro htext
    rcases text with _ | ⟨c, cs⟩
    · exact absurd rfl htext
    · by_cases hascii : (c :: cs).all (fun ch => ch.toNat < 128)
      · left
        simp [handle_type_text, hascii]
      · right
        simp [handle_type_text, hascii]

/-- C10 witness: window resolved, target element `"Editor"` not found
(`found=false`), yet `"hi"` is typed with `typed=true`, no error, and
the result dict equals the one produced when the element is found and
its click raises. -/
theorem claim_C10_witness :
    (handle_type_text (some (1 : ℤ)) (some 1)
      { found := false, element := none, center := none } false
      (("notepad").data) (("hi").data) (("Editor").data) false).1.typed = true ∧
    (handle_type_text (some (1 : ℤ)) (some 1)
      { found := false, element := none, center := none } false
      (("notepad").data) (("hi").data) (("Editor").data) false).1.error = none ∧
    TtAction.write (("hi").data) ∈
      (handle_type_text (some (1 : ℤ)) (some 1)
        { found := false, element := none, center := none } false
        (("notepad").data) (("hi").data) (("Editor").data) false).2 ∧
    (handle_type_text (some (1 : ℤ)) (some 1)
      { found := false, element := none, center := none } false
      (("notepad").data) (("hi").data) (("Editor").data) false).1 =
    (handle_type_text (some (1 : ℤ)) (some 1)
      { found := true, element := some 1, center := some { x := 5, y := 6 } } true
      (("notepad").data) (("hi").data) (("Editor").data) false).1 := by
  have h := claim_C10 (1 : ℤ) (some 1)
    { found := false, element := none, center := none } false
    (("notepad").data) (("hi").data) (("Editor").data) false (by decide)
  exact ⟨h.1, h.2.1, by decide,
    h.2.2.2 { found := true, element := some 1, center := some { x := 5, y := 6 } } true⟩
